import Mathlib

/-!
Verification development for the Energinet power-data utility
(`energinet_functions.py`): a shallow embedding of its two functions,
`load_power_data` and `plot_power_system`, together with theorems about
the embedded definitions.

Modelling conventions:
* numeric cell values are rationals (`ℚ`); the Python floats in the data
  path are exact decimals at the scales involved, and no claim depends on
  rounding;
* the `HourDK` / `HourUTC` timestamp keys are `Nat` time codes (hours).
  The source stores ISO-formatted strings whose lexicographic order
  coincides with chronological order, and `pd.to_datetime` is
  order-preserving, so a `Nat` key with its usual order is a faithful
  order-abstraction of the index;
* a pandas `DataFrame` cell holding `NaN` from a missing JSON field is an
  `Option ℚ` that is `none`;
* Python `dict` arguments are association lists; the Python truthiness
  test `if d:` on an optional dict is `none`, or `some l` with `l = []`,
  being falsy;
* fallible steps return `Except`.
-/

namespace Energinet

/-! ## Loader data model

One raw record of the `records` array of the JSON payload: the `HourUTC`
and `HourDK` timestamp fields, the `PriceArea` identifier, and the numeric
measurement fields.  After `pd.json_normalize`, every record row has one
slot per numeric column (the union of fields), a slot being `NaN` (here
`none`) where the record lacked the field or held `null`. -/
structure RawRecord where
  hourUTC : Nat
  hourDK : Nat
  priceArea : String
  vals : List (Option ℚ)
deriving DecidableEq, Repr

/-- Effect of `df.fillna(0)` on the numeric slots of one row: every
absent/null value becomes `0`. -/
def fillnaVals (vs : List (Option ℚ)) : List ℚ :=
  vs.map (fun v => v.getD 0)

/-- Insert a key into a strictly-sorted duplicate-free list, keeping it
strictly sorted and duplicate-free. -/
def insertKey (k : Nat) : List Nat → List Nat
  | [] => [k]
  | x :: xs =>
      if k < x then k :: x :: xs
      else if k = x then x :: xs
      else x :: insertKey k xs

/-- The sorted, de-duplicated group keys that `groupby` produces from a
column of key values (pandas `groupby` with default `sort=True`). -/
def sortedKeys (l : List Nat) : List Nat :=
  l.foldr insertKey []

/-- Pointwise sum of a group of rows (the `sum()` aggregation applied to
each numeric column of one group). -/
def sumRows : List (List ℚ) → List ℚ
  | [] => []
  | [r] => r
  | r :: rs => List.zipWith (· + ·) r (sumRows rs)

/-- Semantics of `groupby(key).sum()` over keyed rows: one output row per distinct key,
keys sorted ascending, each output row the pointwise sum of the rows of
its group. -/
def groupSum (rows : List (Nat × List ℚ)) : List (Nat × List ℚ) :=
  (sortedKeys (rows.map Prod.fst)).map
    (fun k => (k, sumRows ((rows.filter (fun r => r.1 = k)).map Prod.snd)))

/-- The data-shaping pipeline of `load_power_data` applied to the parsed
records: `fillna(0)`, drop `HourUTC` and `PriceArea`, group by `HourDK`
and sum each remaining numeric column
(`df.drop(['HourUTC', 'PriceArea'], axis=1).groupby('HourDK').sum()`);
the group key becomes the (datetime) index. -/
def loadTable (recs : List RawRecord) : List (Nat × List ℚ) :=
  groupSum (recs.map (fun r => (r.hourDK, fillnaVals r.vals)))

/-! ## Loader error path

`load_power_data` wraps the fetch in `try/except`: a
`requests.exceptions.RequestException` (transport failure, or the
`HTTPError` that `raise_for_status()` raises for a 4xx/5xx status) is
re-raised as the fetch error `Error fetching data from API: ...`; any
other exception of the body (a JSON parse failure from `response.json()`,
or the `KeyError` from `data['records']` when the key is absent) is
re-raised as the processing error `Error processing data: ...`.  Both
carry the original cause in their message. -/

/-- What one HTTP round trip can deliver to the body of the `try`. -/
inductive ResponseBody where
  /-- the body is not valid JSON, so `response.json()` raises -/
  | invalidJson (cause : String)
  /-- valid JSON; `none` means the `records` key is absent (`data['records']`
  raises `KeyError`) -/
  | json (records : Option (List RawRecord))
deriving DecidableEq, Repr

/-- Outcome of `requests.get(url)`. -/
inductive ReqOutcome where
  /-- the transport failed: `requests.get` raises a `RequestException` -/
  | transportError (cause : String)
  /-- a response arrived, with its HTTP status code and body -/
  | ok (status : Nat) (body : ResponseBody)
deriving DecidableEq, Repr

/-- The two failure kinds `load_power_data` surfaces, each wrapping the
original cause. -/
inductive LoadError where
  | fetchError (cause : String)
  | processingError (cause : String)
deriving DecidableEq, Repr

/-- Semantics of `response.raise_for_status()`: raises an `HTTPError` (a
`RequestException`) exactly for client-error (4xx) and server-error (5xx)
status codes. -/
def raise_for_status (status : Nat) : Except String Unit :=
  if 400 ≤ status ∧ status < 600 then
    .error ("HTTP error for status " ++ toString status)
  else .ok ()

/-- The function `load_power_data`, from the outcome of the HTTP request
to either the aggregated table or a wrapped error. -/
def load_power_data (outcome : ReqOutcome) : Except LoadError (List (Nat × List ℚ)) :=
  match outcome with
  | .transportError cause =>
      .error (.fetchError ("Error fetching data from API: " ++ cause))
  | .ok status body =>
      match raise_for_status status with
      | .error cause => .error (.fetchError ("Error fetching data from API: " ++ cause))
      | .ok () =>
          match body with
          | .invalidJson cause =>
              .error (.processingError ("Error processing data: " ++ cause))
          | .json none =>
              .error (.processingError ("Error processing data: \x27records\x27"))
          | .json (some recs) => .ok (loadTable recs)

/-! ## Renderer data model

The `DataFrame` handed to `plot_power_system`: a datetime index (hour
time codes) and named numeric columns, each column holding one value per
index entry. -/
structure DataFrame where
  index : List Nat
  cols : List (String × List ℚ)
deriving DecidableEq, Repr

namespace DataFrame

/-- The column names, `df.columns`. -/
def columns (df : DataFrame) : List String :=
  df.cols.map Prod.fst

/-- Column access `df[c]`: the series of column `c` (the claims only exercise columns
that are present; an absent column defaults to the empty series here,
where the source would raise a `KeyError`). -/
def col (df : DataFrame) (c : String) : List ℚ :=
  ((df.cols.find? (fun p => p.1 = c)).map Prod.snd).getD []

end DataFrame

/-- One scaling write `df[tech] = df[tech] * factor`: multiply the named column in place,
leaving every other column unchanged. -/
def scaleCol (df : DataFrame) (tech : String) (factor : ℚ) : DataFrame :=
  { df with
    cols := df.cols.map
      (fun p => if p.1 = tech then (p.1, p.2.map (· * factor)) else p) }

/-- The scaling loop of `plot_power_system`:
`for tech, factor in scale_factors.items(): if tech in df.columns: ...`;
keys not naming a column of the table are silently skipped. -/
def applyScale (df : DataFrame) (sf : List (String × ℚ)) : DataFrame :=
  sf.foldl
    (fun d tf => if tf.1 ∈ d.columns then scaleCol d tf.1 tf.2 else d) df

/-- Guarded scaling `if scale_factors:` — the loop runs only when the optional dict is
supplied and non-empty (Python truthiness: `None` and `{}` are falsy). -/
def applyScaleOpt (df : DataFrame) (sf : Option (List (String × ℚ))) : DataFrame :=
  match sf with
  | none => df
  | some l => if l = [] then df else applyScale df l

/-- Restrict the rows of the table to the index entries satisfying
`keep` (one pandas label-slice step). -/
def maskRows (keep : Nat → Bool) (df : DataFrame) : DataFrame :=
  { index := df.index.filter keep
    cols := df.cols.map
      (fun p => (p.1, ((df.index.zip p.2).filter (fun tx => keep tx.1)).map Prod.snd)) }

/-- Date-range filtering `if start: df = df[start:]` then `if end: df = df[:end]` — inclusive
label slicing on the datetime index when a bound is supplied, open-ended
otherwise. -/
def filterRange (start stop : Option Nat) (df : DataFrame) : DataFrame :=
  let df1 := match start with
    | none => df
    | some s => maskRows (fun t => s ≤ t) df
  match stop with
  | none => df1
  | some e => maskRows (fun t => t ≤ e) df1

/-- The fixed technology colour palette of `plot_power_system`. -/
def colors : List (String × String) :=
  [("SolarPower", "#FDB813"), ("OnshoreWindPower", "#00A0DC"),
   ("OffshoreWindPower", "#2E8B57"), ("FossilGas", "#FF7F50"),
   ("FossilHardCoal", "#808080"), ("Biomass", "#90EE90"),
   ("FossilOil", "#8B4513"), ("Waste", "darkred")]

/-- The fixed Danish display-name mapping of `plot_power_system`. -/
def danish_names : List (String × String) :=
  [("OnshoreWindPower", "Landvind"), ("OffshoreWindPower", "Havvind"),
   ("SolarPower", "Sol"), ("Biomass", "Biomasse"),
   ("FossilHardCoal", "Kul"), ("FossilGas", "Gas"),
   ("FossilOil", "Olie"), ("Waste", "Affald")]

/-- Dictionary lookup `d.get(k, default)` on an association list. -/
def dictGetD (d : List (String × String)) (k : String) (default : String) : String :=
  ((d.find? (fun p => p.1 = k)).map Prod.snd).getD default

/-- Dictionary lookup `d[k]` on an association list of scale factors (total here; the source
only evaluates it under a membership guard). -/
def sfGet (d : List (String × ℚ)) (k : String) : ℚ :=
  ((d.find? (fun p => p.1 = k)).map Prod.snd).getD 0

/-- The legend label of a stacked series: the Danish display name when
the column is a recognised technology, else the raw column name; with the
scale factor appended when a non-empty scale dict was supplied and names
the column (`if scale_factors and column in scale_factors`). -/
def stackLabel (sf : Option (List (String × ℚ))) (column : String) : String :=
  let base := dictGetD danish_names column column
  let scaled := match sf with
    | none => false
    | some l => !l.isEmpty && column ∈ l.map Prod.fst
  if scaled then
    match sf with
    | none => base
    | some l => base ++ " (x" ++ toString (sfGet l column) ++ ")"
  else base

/-- A pandas datetime-like scalar: either a proper timestamp, or the
not-a-time value `NaT`. -/
inductive PyDT where
  | dt (t : Nat)
  | NaT
deriving DecidableEq, Repr

/-- Conversion `pd.to_datetime` on an optional date argument:
`pd.to_datetime(None)` is `NaT`. -/
def to_datetime : Option Nat → PyDT
  | none => .NaT
  | some t => .dt t

/-- One drawing command issued to the plotting surface while the render
runs (only the commands the claims are about). -/
inductive PlotCmd where
  /-- a call `plt.fill_between(df.index, y_stack, y_stack + df[column], ...)`:
  one stacked band with its label, colour, lower and upper boundary -/
  | fillBetween (column label color : String) (lower upper : List ℚ)
  /-- a call `plt.plot(df.index, ys, color='black', linewidth=0.75)`: the black
  outline on top of a band -/
  | outline (ys : List ℚ)
  /-- a call `plt.plot(df.index, df['TotalLoad'], ..., linestyle='--', ...)`:
  the dashed load overlay -/
  | loadLine (label : String) (ys : List ℚ)
  /-- the call `plt.xlim(pd.to_datetime(start), pd.to_datetime(end))` -/
  | xlim (lo hi : PyDT)
  /-- the call `ax.xaxis.set_major_formatter(mdates.DateFormatter(date_format))` -/
  | dateFormat (fmt : String)
deriving DecidableEq, Repr

/-- Pointwise sum of two series (`y_stack + df[column]` on numpy arrays
of equal length). -/
def vecAdd (a b : List ℚ) : List ℚ :=
  List.zipWith (· + ·) a b

/-- The stacking loop: for each selected column in order, a filled band
from the running baseline `y_stack` to `y_stack + df[column]` and its
black outline, then `y_stack += df[column]`.  Returns the commands and
the final baseline. -/
def stackLoop (df : DataFrame) (sf : Option (List (String × ℚ))) :
    List String → List ℚ → List PlotCmd × List ℚ
  | [], y => ([], y)
  | c :: cs, y =>
      let upper := vecAdd y (df.col c)
      let rest := stackLoop df sf cs upper
      (.fillBetween c (stackLabel sf c) (dictGetD colors c "#CCCCCC") y upper
        :: .outline upper :: rest.1, rest.2)

/-- The running baseline after stacking a list of columns starting from
`y`. -/
def stackBase (df : DataFrame) (cols : List String) (y : List ℚ) : List ℚ :=
  cols.foldl (fun acc c => vecAdd acc (df.col c)) y

/-- A Python-level error the renderer can raise. -/
inductive PyError where
  /-- the error `TypeError: argument of type 'NoneType' is not iterable` -/
  | typeError
deriving DecidableEq, Repr

/-- The load-overlay step:
`if plot_load and 'TotalLoad' not in scale_factors: ...` and
`if plot_load and 'TotalLoad' in scale_factors: ...`.  When `plot_load`
is falsy, `and` short-circuits and nothing is drawn; when `plot_load`
holds and `scale_factors` is `None`, the membership test
`'TotalLoad' not in scale_factors` raises a `TypeError`. -/
def overlayStep (plot_load : Bool) (sf : Option (List (String × ℚ)))
    (df : DataFrame) : Except PyError (List PlotCmd) :=
  if plot_load then
    match sf with
    | none => .error .typeError
    | some l =>
        if "TotalLoad" ∈ l.map Prod.fst then
          .ok [.loadLine ("Forbrug (x" ++ toString (sfGet l "TotalLoad") ++ ")")
                 (df.col "TotalLoad")]
        else .ok [.loadLine "Forbrug" (df.col "TotalLoad")]
  else .ok []

/-- Choice of `date_format` from `time_span`, with the span in
hours (`timedelta(days=1)` is 24, `timedelta(days=14)` is 336,
`timedelta(days=365)` is 8760). -/
def chooseDateFormat (timeSpanHours : Nat) : String :=
  if timeSpanHours ≤ 24 then "%H:%M"
  else if timeSpanHours ≤ 14 * 24 then "%d-%m %H:%M"
  else if timeSpanHours ≤ 365 * 24 then "%d-%m-%Y"
  else "%Y-%m"

/-- The span `time_span = df.index.max() - df.index.min()`, in hours. -/
def timeSpanHours (df : DataFrame) : Nat :=
  (df.index.foldr max 0) - (df.index.foldr min (df.index.foldr max 0))

/-- The function `plot_power_system` as the sequence of drawing commands it issues, or
the error it raises: copy the table, scale, slice to the date range,
stack the selected columns bottom to top, draw the load overlay, set the
x-limits to `pd.to_datetime(start)`/`pd.to_datetime(end)` (`None` maps to
`NaT`, modelled by the `Option` staying `none`), and set the date format
chosen from the time span.  Title, grid, legend and tick styling commands
carry no data and are omitted. -/
def plot_power_system (df : DataFrame) (columns_to_plot : List String)
    (scale_factors : Option (List (String × ℚ)))
    (start stop : Option Nat) (plot_load : Bool) :
    Except PyError (List PlotCmd) :=
  let df1 := filterRange start stop (applyScaleOpt df scale_factors)
  let y0 : List ℚ := df1.index.map (fun _ => 0)
  match overlayStep plot_load scale_factors df1 with
  | .error e => .error e
  | .ok overlay =>
      .ok ((stackLoop df1 scale_factors columns_to_plot y0).1 ++ overlay ++
        [.xlim (to_datetime start) (to_datetime stop),
         .dateFormat (chooseDateFormat (timeSpanHours df1))])

/-- The fill commands of a trace, each reduced to its numeric content:
column, lower boundary, upper boundary. -/
def fills : List PlotCmd → List (String × List ℚ × List ℚ)
  | [] => []
  | .fillBetween c _ _ lo hi :: rest => (c, lo, hi) :: fills rest
  | _ :: rest => fills rest

/-- The fill commands of a render result (none when the render raised). -/
def fillsOf (r : Except PyError (List PlotCmd)) : List (String × List ℚ × List ℚ) :=
  match r with
  | .ok cmds => fills cmds
  | .error _ => []

/-- Whether a render result issued the date-format command for `fmt`. -/
def emitsDateFormat (r : Except PyError (List PlotCmd)) (fmt : String) : Bool :=
  match r with
  | .ok cmds => decide (PlotCmd.dateFormat fmt ∈ cmds)
  | .error _ => false

/-! ## Heap model of the copy step

For the frame claim the relevant mutation structure is made explicit: the
Python heap is a list of `DataFrame` objects, variables are addresses into
it.  `df = df.copy()` allocates a fresh object and rebinds the local
variable; the in-place column writes of the scaling loop hit the bound
address; the slicing steps allocate new objects and rebind. -/

/-- One iteration of the scaling loop acting on the heap: read the object
bound at `a1`, and when the key names one of its columns write the scaled
object back to `a1` (the in-place `df[tech] = df[tech] * factor`). -/
def scaleWrite (a1 : Nat) (hh : List DataFrame) (tf : String × ℚ) : List DataFrame :=
  let d := hh.getD a1 ⟨[], []⟩
  if tf.1 ∈ d.columns then hh.set a1 (scaleCol d tf.1 tf.2) else hh

/-- The heap effects of `plot_power_system` on a heap `h` in which the
caller's table lives at address `dfAddr`.  Returns the final heap and the
address the local `df` ends bound to. -/
def plot_power_system_heap (h : List DataFrame) (dfAddr : Nat)
    (scale_factors : Option (List (String × ℚ)))
    (start stop : Option Nat) : List DataFrame × Nat :=
  -- df = df.copy(): allocate a copy, rebind df
  let a1 := h.length
  let h1 := h ++ [h.getD dfAddr ⟨[], []⟩]
  -- scaling loop: in-place writes at the bound address
  let h2 := match scale_factors with
    | none => h1
    | some l => if l = [] then h1 else l.foldl (scaleWrite a1) h1
  -- df = df[start:]; df = df[:end]: fresh objects, rebinds
  let a2 := h2.length
  let h3 := h2 ++ [filterRange start stop (h2.getD a1 ⟨[], []⟩)]
  (h3, a2)

/-! ## Helper lemmas: sorted group keys -/

theorem mem_insertKey (x k : Nat) (l : List Nat) :
    x ∈ insertKey k l ↔ x = k ∨ x ∈ l := by
  induction l with
  | nil => simp [insertKey]
  | cons y ys ih =>
      simp only [insertKey]
      split
      · simp [List.mem_cons]
      · split
        · next h2 =>
            subst h2
            simp only [List.mem_cons]
            tauto
        · simp only [List.mem_cons, ih]
          tauto

theorem sorted_insertKey (k : Nat) (l : List Nat) (h : List.Sorted (· < ·) l) :
    List.Sorted (· < ·) (insertKey k l) := by
  induction l with
  | nil => simp [insertKey]
  | cons y ys ih =>
      rw [List.sorted_cons] at h
      simp only [insertKey]
      split
      · next h1 =>
          rw [List.sorted_cons]
          refine ⟨?_, ?_⟩
          · intro b hb
            rcases List.mem_cons.mp hb with rfl | hb
            · exact h1
            · exact lt_trans h1 (h.1 b hb)
          · rw [List.sorted_cons]; exact h
      · next h1 =>
          split
          · rw [List.sorted_cons]; exact h
          · next h2 =>
              rw [List.sorted_cons]
              refine ⟨?_, ih h.2⟩
              intro b hb
              rcases (mem_insertKey b k ys).mp hb with rfl | hb
              · omega
              · exact h.1 b hb

theorem sorted_sortedKeys (l : List Nat) : List.Sorted (· < ·) (sortedKeys l) := by
  induction l with
  | nil => simp [sortedKeys]
  | cons x xs ih =>
      have hx : sortedKeys (x :: xs) = insertKey x (sortedKeys xs) := rfl
      rw [hx]
      exact sorted_insertKey x _ ih

theorem mem_sortedKeys (x : Nat) (l : List Nat) : x ∈ sortedKeys l ↔ x ∈ l := by
  induction l with
  | nil => simp [sortedKeys]
  | cons y ys ih =>
      have hy : sortedKeys (y :: ys) = insertKey y (sortedKeys ys) := rfl
      rw [hy, mem_insertKey]
      simp [List.mem_cons, ih]

theorem groupSum_keys (rows : List (Nat × List ℚ)) :
    (groupSum rows).map Prod.fst = sortedKeys (rows.map Prod.fst) := by
  simp only [groupSum, List.map_map]
  exact List.map_id _

theorem loadTable_keys (recs : List RawRecord) :
    (loadTable recs).map Prod.fst = sortedKeys (recs.map RawRecord.hourDK) := by
  simp only [loadTable, groupSum_keys, List.map_map]
  rfl

/-! ## Helper lemmas: missing values -/

theorem fillnaVals_forced (vs : List (Option ℚ)) :
    fillnaVals (vs.map (fun v => some (v.getD 0))) = fillnaVals vs := by
  simp [fillnaVals, List.map_map]

/-! ## Helper lemmas: stacking -/

theorem stackLoop_fills (df : DataFrame) (sf : Option (List (String × ℚ))) :
    ∀ (cols : List String) (y : List ℚ),
      fills (stackLoop df sf cols y).1 =
        (List.range cols.length).map
          (fun i => (cols.getD i "", stackBase df (cols.take i) y,
                     stackBase df (cols.take (i + 1)) y))
  | [], _ => rfl
  | c :: cs, y => by
      have ih := stackLoop_fills df sf cs (vecAdd y (df.col c))
      have h1 : fills (stackLoop df sf (c :: cs) y).1 =
          (c, y, vecAdd y (df.col c)) ::
            fills (stackLoop df sf cs (vecAdd y (df.col c))).1 := rfl
      rw [h1, ih, List.length_cons, List.range_succ_eq_map, List.map_cons,
        List.map_map]
      rfl

theorem stackLoop_snd (df : DataFrame) (sf : Option (List (String × ℚ))) :
    ∀ (cols : List String) (y : List ℚ),
      (stackLoop df sf cols y).2 = stackBase df cols y
  | [], _ => rfl
  | c :: cs, y => stackLoop_snd df sf cs (vecAdd y (df.col c))

theorem stackLoop_fills_indep (df : DataFrame)
    (sf sf' : Option (List (String × ℚ))) (cols : List String) (y : List ℚ) :
    fills (stackLoop df sf cols y).1 = fills (stackLoop df sf' cols y).1 := by
  rw [stackLoop_fills, stackLoop_fills]

theorem fills_append : ∀ (a b : List PlotCmd), fills (a ++ b) = fills a ++ fills b
  | [], _ => rfl
  | cmd :: a, b => by
      cases cmd <;> simp [fills, fills_append a b]

/-! ## Helper lemmas: scaling -/

theorem scaleCol_one (df : DataFrame) (tech : String) : scaleCol df tech 1 = df := by
  cases df with
  | mk idx cs =>
      simp [scaleCol]

theorem applyScale_one : ∀ (sf : List (String × ℚ)), (∀ p ∈ sf, p.2 = 1) →
    ∀ df, applyScale df sf = df
  | [], _, _ => rfl
  | p :: ps, h, df => by
      have hp : p.2 = 1 := h p (List.mem_cons_self p ps)
      have h' : ∀ q ∈ ps, q.2 = 1 := fun q hq => h q (List.mem_cons_of_mem p hq)
      have hcons : applyScale df (p :: ps) =
          applyScale (if p.1 ∈ df.columns then scaleCol df p.1 p.2 else df) ps := rfl
      rw [hcons, hp]
      by_cases hc : p.1 ∈ df.columns
      · rw [if_pos hc, scaleCol_one]
        exact applyScale_one ps h' df
      · rw [if_neg hc]
        exact applyScale_one ps h' df

theorem applyScaleOpt_none (df : DataFrame) : applyScaleOpt df none = df := rfl

theorem applyScaleOpt_one (df : DataFrame) (sf : List (String × ℚ))
    (h : ∀ p ∈ sf, p.2 = 1) : applyScaleOpt df (some sf) = df := by
  by_cases hsf : sf = []
  · simp [applyScaleOpt, hsf]
  · simp only [applyScaleOpt, if_neg hsf]
    exact applyScale_one sf h df

/-! ## Helper lemmas: whole-render equations -/

theorem plot_no_load (df : DataFrame) (cols : List String)
    (sf : Option (List (String × ℚ))) (start stop : Option Nat) :
    plot_power_system df cols sf start stop false =
      .ok ((stackLoop (filterRange start stop (applyScaleOpt df sf)) sf cols
              ((filterRange start stop (applyScaleOpt df sf)).index.map (fun _ => 0))).1 ++
           [.xlim (to_datetime start) (to_datetime stop),
            .dateFormat (chooseDateFormat
              (timeSpanHours (filterRange start stop (applyScaleOpt df sf))))]) := by
  have h : plot_power_system df cols sf start stop false =
      .ok ((stackLoop (filterRange start stop (applyScaleOpt df sf)) sf cols
              ((filterRange start stop (applyScaleOpt df sf)).index.map (fun _ => 0))).1 ++
           [] ++
           [.xlim (to_datetime start) (to_datetime stop),
            .dateFormat (chooseDateFormat
              (timeSpanHours (filterRange start stop (applyScaleOpt df sf))))]) := rfl
  rw [h, List.append_nil]

/-! ## Helper lemmas: heap frame -/

theorem scaleWrite_getElem (a1 : Nat) (hh : List DataFrame) (tf : String × ℚ)
    (a : Nat) (ha : a1 ≠ a) : (scaleWrite a1 hh tf)[a]? = hh[a]? := by
  unfold scaleWrite
  dsimp only
  split
  · exact List.getElem?_set_ne ha
  · rfl

theorem scaleFold_getElem (a1 : Nat) (l : List (String × ℚ)) (a : Nat)
    (ha : a1 ≠ a) : ∀ hh, (l.foldl (scaleWrite a1) hh)[a]? = hh[a]? := by
  induction l with
  | nil => intro hh; rfl
  | cons tf tl ih =>
      intro hh
      rw [List.foldl_cons, ih, scaleWrite_getElem a1 hh tf a ha]

theorem scaleWrite_length (a1 : Nat) (hh : List DataFrame) (tf : String × ℚ) :
    (scaleWrite a1 hh tf).length = hh.length := by
  unfold scaleWrite
  dsimp only
  split
  · exact List.length_set hh a1 _
  · rfl

theorem scaleFold_length (a1 : Nat) (l : List (String × ℚ)) :
    ∀ hh, (l.foldl (scaleWrite a1) hh).length = hh.length := by
  induction l with
  | nil => intro hh; rfl
  | cons tf tl ih =>
      intro hh
      rw [List.foldl_cons, ih, scaleWrite_length]

/-! ## Claim theorems -/

/-- C3: for every successful call to `load_power_data`, the index of the
returned table is strictly increasing (ordered ascending as timestamps)
and contains no duplicate hour keys — one row per distinct local-time
hour present in the source records. -/
theorem load_power_data_index_strictMono (status : Nat) (recs : List RawRecord)
    (tbl : List (Nat × List ℚ))
    (h : load_power_data (.ok status (.json (some recs))) = .ok tbl) :
    List.Sorted (· < ·) (tbl.map Prod.fst) ∧ (tbl.map Prod.fst).Nodup ∧
      ∀ k, k ∈ tbl.map Prod.fst ↔ k ∈ recs.map RawRecord.hourDK := by
  have htbl : tbl = loadTable recs := by
    unfold load_power_data at h
    by_cases hs : 400 ≤ status ∧ status < 600
    · simp [raise_for_status, hs] at h
    · simp only [raise_for_status, if_neg hs] at h
      exact (Except.ok.inj h).symm
  subst htbl
  refine ⟨?_, ?_, ?_⟩
  · rw [loadTable_keys]
    exact sorted_sortedKeys _
  · rw [loadTable_keys]
    exact (sorted_sortedKeys _).nodup
  · intro k
    rw [loadTable_keys]
    exact mem_sortedKeys k _

/-- Witness for C3 at a concrete input: two records with hours 7 and 3
produce the table indexed by [3, 7], strictly increasing and covering
exactly the hours of the records. -/
theorem load_power_data_index_strictMono_witness :
    List.Sorted (· < ·) (([((3:Nat), [(2:ℚ)]), (7, [1])]).map Prod.fst) ∧
    (([((3:Nat), [(2:ℚ)]), (7, [1])]).map Prod.fst).Nodup ∧
    ∀ k, k ∈ ([((3:Nat), [(2:ℚ)]), (7, [1])]).map Prod.fst ↔
      k ∈ ([⟨0, 7, "DK1", [some 1]⟩, ⟨0, 3, "DK2", [some 2]⟩] : List RawRecord).map
            RawRecord.hourDK :=
  load_power_data_index_strictMono 200 _ _ rfl

/-- C4: `load_power_data` groups rows by the local-time hour key `HourDK`,
drops the `PriceArea` and `HourUTC` columns (the output depends only on
the hour key and the numeric fields), and sums every remaining numeric
column per group; for two price areas at the same hour holding 10 and 20,
the aggregated row holds 30. -/
theorem loadTable_drop_and_sum :
    (∀ (recs : List RawRecord) (f : RawRecord → Nat) (g : RawRecord → String),
        loadTable (recs.map (fun r => { r with hourUTC := f r, priceArea := g r })) =
          loadTable recs) ∧
    loadTable [⟨0, 5, "DK1", [some 10]⟩, ⟨1, 5, "DK2", [some 20]⟩] = [(5, [30])] := by
  constructor
  · intro recs f g
    simp only [loadTable, List.map_map]
    rfl
  · simp [loadTable, groupSum, sortedKeys, insertKey, sumRows, fillnaVals]
    norm_num

/-- C9: every absent or null numeric field of a raw record is replaced
with zero before aggregation, so a record with a null numeric field
aggregates exactly as the same record with that field set to 0. -/
theorem loadTable_null_as_zero :
    (∀ recs : List RawRecord,
        loadTable (recs.map
            (fun r => { r with vals := r.vals.map (fun v => some (v.getD 0)) })) =
          loadTable recs) ∧
    loadTable [⟨0, 1, "DK1", [some 10, none]⟩] =
      loadTable [⟨0, 1, "DK1", [some 10, some 0]⟩] ∧
    loadTable [⟨0, 1, "DK1", [some 10, none]⟩] = [(1, [10, 0])] := by
  refine ⟨?_,
    by simp [loadTable, groupSum, sortedKeys, insertKey, sumRows, fillnaVals],
    by simp [loadTable, groupSum, sortedKeys, insertKey, sumRows, fillnaVals]⟩
  intro recs
  simp only [loadTable, List.map_map]
  congr 1
  apply List.map_congr_left
  intro r _
  simp only [Function.comp]
  rw [fillnaVals_forced]

/-- C6 counterexample: a response that survives `raise_for_status` with a
non-2xx status (here 300, a redirect-family status outside the 4xx/5xx
range the check raises for) and carries a well-formed body yields a
table, not a `FetchError` — refuting "any non-2xx HTTP status produces a
FetchError and no table is returned". -/
theorem load_status_300_returns_table :
    load_power_data (.ok 300 (.json (some []))) = .ok [] := rfl

/-- C6 (amended): any transport failure, or an HTTP status in the 4xx/5xx
range, produces a `FetchError`; malformed JSON or a missing `records`
field in a response outside that range produces a `ProcessingError`; each
error wraps the original cause, and a failing call returns no table. -/
theorem load_power_data_error_wrapping :
    (∀ cause, load_power_data (.transportError cause) =
        .error (.fetchError ("Error fetching data from API: " ++ cause))) ∧
    (∀ (status : Nat) (body : ResponseBody), 400 ≤ status → status < 600 →
        load_power_data (.ok status body) =
          .error (.fetchError ("Error fetching data from API: " ++
            ("HTTP error for status " ++ toString status)))) ∧
    (∀ (status : Nat) (cause : String), ¬(400 ≤ status ∧ status < 600) →
        load_power_data (.ok status (.invalidJson cause)) =
          .error (.processingError ("Error processing data: " ++ cause))) ∧
    (∀ status : Nat, ¬(400 ≤ status ∧ status < 600) →
        load_power_data (.ok status (.json none)) =
          .error (.processingError "Error processing data: \x27records\x27")) ∧
    (∀ (outcome : ReqOutcome) (e : LoadError), load_power_data outcome = .error e →
        ∀ tbl, load_power_data outcome ≠ .ok tbl) := by
  refine ⟨fun cause => rfl, ?_, ?_, ?_, ?_⟩
  · intro status body h1 h2
    simp [load_power_data, raise_for_status, h1, h2]
  · intro status cause hs
    simp [load_power_data, raise_for_status, hs]
  · intro status hs
    simp [load_power_data, raise_for_status, hs]
  · intro outcome e he tbl hok
    rw [he] at hok
    exact Except.noConfusion hok

/-- Witness for C6 (amended) at concrete inputs: a 404 wraps into the
fetch error, malformed JSON at 200 and a missing records key at 200 wrap
into processing errors. -/
theorem load_power_data_error_wrapping_witness :
    load_power_data (.ok 404 (.json (some []))) =
      .error (.fetchError ("Error fetching data from API: " ++
        ("HTTP error for status " ++ toString (404 : Nat)))) ∧
    load_power_data (.ok 200 (.invalidJson "bad json")) =
      .error (.processingError ("Error processing data: " ++ "bad json")) ∧
    load_power_data (.ok 200 (.json none)) =
      .error (.processingError "Error processing data: \x27records\x27") :=
  ⟨load_power_data_error_wrapping.2.1 404 _ (by decide) (by decide),
   load_power_data_error_wrapping.2.2.1 200 "bad json" (by decide),
   load_power_data_error_wrapping.2.2.2.1 200 (by decide)⟩

/-- C1 (the code contradicts the claimed tolerance): with the load
overlay enabled and no scale-factor mapping supplied (`None`, the
default), the membership check `'TotalLoad' not in scale_factors` raises
a `TypeError` instead of treating the absent mapping as empty; with an
explicit empty mapping the call succeeds and draws the unscaled
`Forbrug` overlay, which is the behaviour the claim describes. -/
theorem plot_load_overlay_none_raises :
    (∀ (df : DataFrame) (cols : List String) (start stop : Option Nat),
        plot_power_system df cols none start stop true = .error .typeError) ∧
    (∀ (df : DataFrame) (cols : List String) (start stop : Option Nat),
        ∃ cmds, plot_power_system df cols (some []) start stop true = .ok cmds ∧
          PlotCmd.loadLine "Forbrug" ((filterRange start stop df).col "TotalLoad") ∈ cmds) := by
  constructor
  · intro df cols start stop
    rfl
  · intro df cols start stop
    have he : plot_power_system df cols (some []) start stop true =
        .ok ((stackLoop (filterRange start stop df) (some []) cols
            ((filterRange start stop df).index.map (fun _ => 0))).1 ++
          [PlotCmd.loadLine "Forbrug" ((filterRange start stop df).col "TotalLoad")] ++
          [PlotCmd.xlim (to_datetime start) (to_datetime stop),
           PlotCmd.dateFormat (chooseDateFormat (timeSpanHours (filterRange start stop df)))]) :=
      rfl
    exact ⟨_, he, by simp [List.mem_append]⟩

/-- C10: when start and end are both omitted, a completing render still
issues the x-limit command unconditionally, with NaT — the value of
`pd.to_datetime(None)` — as both bounds. -/
theorem plot_xlim_NaT_when_unbounded (df : DataFrame) (cols : List String)
    (sf : Option (List (String × ℚ))) (pl : Bool) (cmds : List PlotCmd)
    (h : plot_power_system df cols sf none none pl = .ok cmds) :
    PlotCmd.xlim .NaT .NaT ∈ cmds := by
  simp only [plot_power_system] at h
  split at h
  · exact Except.noConfusion h
  · obtain rfl := (Except.ok.inj h).symm
    simp [to_datetime, List.mem_append]

/-- Witness for C10 at a concrete call (load overlay off, so the call
completes): the x-limit command with both bounds NaT is in the trace. -/
theorem plot_xlim_NaT_when_unbounded_witness :
    PlotCmd.xlim PyDT.NaT PyDT.NaT ∈
      ((plot_power_system ⟨[0], [("A", [1])]⟩ ["A"] none none none false).toOption.getD []) :=
  plot_xlim_NaT_when_unbounded ⟨[0], [("A", [1])]⟩ ["A"] none false _ rfl

/-- C7: the caller's table is never mutated — the render works on a
private copy, in-place scaling writes hit only that copy, and after the
call the object at the caller's heap address is exactly the table it held
before the call. -/
theorem plot_power_system_no_mutation (h : List DataFrame) (a : Nat)
    (sf : Option (List (String × ℚ))) (start stop : Option Nat)
    (ha : a < h.length) :
    ((plot_power_system_heap h a sf start stop).1)[a]? = h[a]? := by
  have hne : h.length ≠ a := by omega
  have ha1 : a < (h ++ [h.getD a ⟨[], []⟩]).length := by
    simp only [List.length_append, List.length_singleton]
    omega
  simp only [plot_power_system_heap]
  cases sf with
  | none =>
      rw [List.getElem?_append_left ha1, List.getElem?_append_left ha]
  | some l =>
      by_cases hl : l = []
      · simp only [hl, if_pos]
        rw [List.getElem?_append_left ha1, List.getElem?_append_left ha]
      · simp only [if_neg hl]
        have hflen : a < (l.foldl (scaleWrite h.length)
            (h ++ [h.getD a ⟨[], []⟩])).length := by
          rw [scaleFold_length]
          exact ha1
        rw [List.getElem?_append_left hflen, scaleFold_getElem _ _ _ hne,
          List.getElem?_append_left ha]

/-- Witness for C7 at a concrete call: a one-object heap whose table is
scaled during the render still holds the original table at address 0. -/
theorem plot_power_system_no_mutation_witness :
    ((plot_power_system_heap [⟨[0], [("A", [1])]⟩] 0 (some [("A", 2)]) none none).1)[0]? =
      some (⟨[0], [("A", [1])]⟩ : DataFrame) :=
  plot_power_system_no_mutation _ 0 _ none none (by decide)

/-- C5: the stack is drawn cumulatively in caller-supplied column order —
every band runs from the running cumulative baseline to baseline plus the
column's value and the baseline then advances by that value; for columns
[A, B] with values [3, 4] at a timestamp, the top of the band for A is 3
and the top for B is 7. -/
theorem plot_stack_cumulative :
    (∀ (df : DataFrame) (sf : Option (List (String × ℚ)))
        (cols : List String) (y : List ℚ),
        fills (stackLoop df sf cols y).1 =
          (List.range cols.length).map
            (fun i => (cols.getD i "", stackBase df (cols.take i) y,
                       stackBase df (cols.take (i + 1)) y)) ∧
        (stackLoop df sf cols y).2 = stackBase df cols y) ∧
    fillsOf (plot_power_system ⟨[0], [("A", [3]), ("B", [4])]⟩ ["A", "B"] none
        none none false) = [("A", [0], [3]), ("B", [3], [7])] := by
  constructor
  · intro df sf cols y
    exact ⟨stackLoop_fills df sf cols y, stackLoop_snd df sf cols y⟩
  · rw [plot_no_load]
    simp only [fillsOf]
    rw [fills_append]
    simp [fills, stackLoop, vecAdd, DataFrame.col, List.find?, filterRange,
      applyScaleOpt]
    norm_num

/-- C8: a scale-factor mapping whose factors are all 1 leaves the table
used for plotting numerically unchanged — the scaled table equals the
input, and the numeric content of every drawn band coincides with that of
the unscaled render. -/
theorem plot_scale_one_unchanged (df : DataFrame) (sf : List (String × ℚ))
    (hone : ∀ p ∈ sf, p.2 = 1) :
    applyScaleOpt df (some sf) = df ∧
    ∀ (cols : List String) (start stop : Option Nat),
      fillsOf (plot_power_system df cols (some sf) start stop false) =
        fillsOf (plot_power_system df cols none start stop false) := by
  have h1 := applyScaleOpt_one df sf hone
  refine ⟨h1, ?_⟩
  intro cols start stop
  rw [plot_no_load, plot_no_load, h1, applyScaleOpt_none]
  simp only [fillsOf]
  rw [fills_append, fills_append, stackLoop_fills_indep _ (some sf) none]

/-- Witness for C8 at a concrete input: scaling `SolarPower` by 1 leaves
the table and the drawn bands of the render unchanged. -/
theorem plot_scale_one_unchanged_witness :
    applyScaleOpt ⟨[0], [("SolarPower", [2])]⟩ (some [("SolarPower", 1)]) =
      (⟨[0], [("SolarPower", [2])]⟩ : DataFrame) ∧
    fillsOf (plot_power_system ⟨[0], [("SolarPower", [2])]⟩ ["SolarPower"]
        (some [("SolarPower", 1)]) none none false) =
      fillsOf (plot_power_system ⟨[0], [("SolarPower", [2])]⟩ ["SolarPower"]
        none none none false) := by
  have h := plot_scale_one_unchanged ⟨[0], [("SolarPower", [2])]⟩ [("SolarPower", 1)]
    (by intro p hp; simp only [List.mem_singleton] at hp; subst hp; rfl)
  exact ⟨h.1, h.2 ["SolarPower"] none none⟩

/-- C2 counterexample: at a bounded range of 20 days the render does not
emit the day-month hour:minute format; the chosen format for a 20-day
span is the day-month-year format. -/
theorem dateFormat_20_days_not_hourmin :
    emitsDateFormat (plot_power_system ⟨[0, 480], [("A", [1, 1])]⟩ ["A"] none
        (some 0) (some 480) false) "%d-%m %H:%M" = false ∧
    chooseDateFormat (timeSpanHours ⟨[0, 480], [("A", [1, 1])]⟩) = "%d-%m-%Y" := by
  constructor <;> decide

/-- C2 (amended): a bounded range of exactly 12 hours selects the
hour:minute format, a range of 20 days selects the day-month-year format
(`%d-%m-%Y`), and a range of 400 days selects the year-month format. -/
theorem dateFormat_selection_amended :
    emitsDateFormat (plot_power_system ⟨[0, 12], [("A", [1, 1])]⟩ ["A"] none
        (some 0) (some 12) false) "%H:%M" = true ∧
    emitsDateFormat (plot_power_system ⟨[0, 480], [("A", [1, 1])]⟩ ["A"] none
        (some 0) (some 480) false) "%d-%m-%Y" = true ∧
    emitsDateFormat (plot_power_system ⟨[0, 9600], [("A", [1, 1])]⟩ ["A"] none
        (some 0) (some 9600) false) "%Y-%m" = true := by
  refine ⟨?_, ?_, ?_⟩ <;> decide

end Energinet
